import Mathlib

/-!
Verification development for the image-converter client component
(src/src/App.tsx). The component is shallowly embedded: React state is a
record, object URLs are natural-number identifiers tracked in a live set,
and the asynchronous environment (grecaptcha, fetch) is an oracle record.
-/

namespace Converter

/-- Value placed in a multipart form field: either the selected file
(identified by a handle) or a plain string. -/
inductive FormValue where
  | file (id : Nat)
  | str (s : String)
deriving DecidableEq, Repr

/-- React state of the App component, plus bookkeeping for object URLs:
files and object URLs are modelled as natural-number handles, `liveUrls`
is the set of preview object URLs created and not yet revoked, and
`nextUrl` is a fresh-handle counter. -/
structure AppState where
  selectedFile : Option Nat
  previewUrl : Option Nat
  targetFormat : String
  outputFilename : String
  isConverting : Bool
  error : Option String
  successMsg : Option String
  isRecaptchaReady : Bool
  liveUrls : List Nat
  nextUrl : Nat
deriving Repr

/-- Initial component state as set by the useState initializers. -/
def initState : AppState :=
  { selectedFile := none
    previewUrl := none
    targetFormat := "webp"
    outputFilename := ""
    isConverting := false
    error := none
    successMsg := none
    isRecaptchaReady := false
    liveUrls := []
    nextUrl := 0 }

/-- Line 91: if a preview URL exists, URL.revokeObjectURL is called on it,
removing it from the live set (the state field itself is not cleared). -/
def revokePreview (st : AppState) : AppState :=
  match st.previewUrl with
  | some u => { st with liveUrls := st.liveUrls.erase u }
  | none => st

/-- Lines 90-100, handleFileChange: always revoke the previous preview
URL first; then, if the change event carries a file, store it, create a
fresh preview object URL, and clear both messages. -/
def handleFileChange (st : AppState) (file : Option Nat) : AppState :=
  let st1 := revokePreview st
  match file with
  | some f =>
    { st1 with
        selectedFile := some f
        previewUrl := some st1.nextUrl
        liveUrls := st1.nextUrl :: st1.liveUrls
        nextUrl := st1.nextUrl + 1
        error := none
        successMsg := none }
  | none => st1

/-- Whitespace test used by the String.prototype.trim model. -/
def isWS (c : Char) : Bool :=
  c = ' ' || c = '\t' || c = '\n' || c = '\r'

/-- Model of JavaScript String.prototype.trim on a character list. -/
def trimWS (l : List Char) : List Char :=
  ((l.dropWhile isWS).reverse.dropWhile isWS).reverse

/-- Model of .replace with a global pattern removing a leading run and a
trailing run of double quotes (line 157). -/
def stripQuotes (l : List Char) : List Char :=
  ((l.dropWhile (fun c => c = '"')).reverse.dropWhile (fun c => c = '"')).reverse

/-- Backtracking semantics of the lazy group in the filename pattern of
line 155: after the optional opening quote, the group is the shortest
nonempty prefix of `r` whose remainder is empty or a single closing
quote anchored at end of input. -/
def lazyGroup (r : List Char) : Option (List Char) :=
  match r with
  | [] => none
  | _ =>
    if r.getLast? = some '"' ∧ 2 ≤ r.length then some r.dropLast
    else some r

/-- Backtracking semantics of the optional opening quote of line 155:
the greedy optional quote is consumed first and released only if the
rest of the pattern cannot match. -/
def tailMatch (r : List Char) : Option (List Char) :=
  match r with
  | '"' :: rest =>
    match lazyGroup rest with
    | some g => some g
    | none => lazyGroup r
  | _ => lazyGroup r

/-- Literal part of the filename pattern of line 155. -/
def fnKey : List Char := ['f', 'i', 'l', 'e', 'n', 'a', 'm', 'e', '=']

/-- Leftmost match of the filename pattern over the header value:
scan positions left to right, and at each occurrence of the literal try
the rest of the pattern, moving on if it fails there. -/
def findMatch : List Char → Option (List Char)
  | [] => none
  | c :: cs =>
    if fnKey.isPrefixOf (c :: cs) then
      match tailMatch ((c :: cs).drop 9) with
      | some g => some g
      | none => findMatch cs
    else
      findMatch cs

/-- Lines 152-159: resolve the download filename from the optional
content-disposition header (JavaScript truthiness: a missing header and
an empty string both fall through) and the target format. -/
def resolveFilename (contentDisposition : Option String) (targetFormat : String) : String :=
  match contentDisposition with
  | none => "converted." ++ targetFormat
  | some cd =>
    if cd = "" then "converted." ++ targetFormat
    else
      match findMatch cd.data with
      | some g => String.mk (trimWS (stripQuotes g))
      | none => "converted." ++ targetFormat

/-- Response observed by the submit handler when fetch resolves. -/
structure FetchResponse where
  ok : Bool
  status : Nat
  errorText : String
  contentDisposition : Option String
deriving Repr

/-- Oracle for the asynchronous environment of one submission: whether
window.grecaptcha with an execute member is present, the outcome of
grecaptcha.execute (a rejection or a token string), and the outcome of
fetch (a network error or a response). -/
structure SubmitEnv where
  grecaptchaAvailable : Bool
  tokenOutcome : Except String String
  fetchOutcome : Except String FetchResponse

/-- Observable side effects of one submission attempt. -/
structure SubmitTrace where
  requestSent : Bool
  formFields : List (String × FormValue)
  downloadTriggered : Bool
  downloadFilename : Option String
  downloadUrlCreated : Bool
  downloadUrlRevoked : Bool

/-- Trace of an attempt that produced no outbound request or download. -/
def emptyTrace : SubmitTrace :=
  { requestSent := false
    formFields := []
    downloadTriggered := false
    downloadFilename := none
    downloadUrlCreated := false
    downloadUrlRevoked := false }

/-- Lines 117-167, the try block of handleSubmit, given the target
format and output filename read from state and the selected file handle
`f`: check grecaptcha availability, obtain and validate the token,
assemble the form data, send the request, and on a success response
resolve the filename and trigger the download. Returns the thrown error
message or the resolved filename, with the side-effect trace. -/
def submitTry (targetFormat outputFilename : String) (f : Nat) (env : SubmitEnv) :
    Except String String × SubmitTrace :=
  if !env.grecaptchaAvailable then
    (Except.error "reCAPTCHA tidak tersedia", emptyTrace)
  else
    match env.tokenOutcome with
    | Except.error e => (Except.error e, emptyTrace)
    | Except.ok token =>
      if token = "" then
        (Except.error "reCAPTCHA token kosong", emptyTrace)
      else
        let fields :=
          [("file", FormValue.file f),
           ("target_format", FormValue.str targetFormat),
           ("g-recaptcha-response", FormValue.str token)] ++
          (if outputFilename = "" then [] else
            [("output_filename", FormValue.str outputFilename)])
        match env.fetchOutcome with
        | Except.error e =>
          (Except.error e,
           { emptyTrace with requestSent := true, formFields := fields })
        | Except.ok resp =>
          if !resp.ok then
            (Except.error
              ("Server error: " ++ toString resp.status ++ " - " ++ resp.errorText),
             { emptyTrace with requestSent := true, formFields := fields })
          else
            let filename := resolveFilename resp.contentDisposition targetFormat
            (Except.ok filename,
             { requestSent := true
               formFields := fields
               downloadTriggered := true
               downloadFilename := some filename
               downloadUrlCreated := true
               downloadUrlRevoked := true })

/-- Lines 102-180, handleSubmit: the two early validation returns, then
the in-flight flag raised and both messages cleared, the try block, the
catch converting a thrown error to a displayed message, and the finally
clearing the in-flight flag; the resulting state reflects all setters
applied over one completed run. -/
def handleSubmit (st : AppState) (env : SubmitEnv) : AppState × SubmitTrace :=
  match st.selectedFile with
  | none => ({ st with error := some "Pilih file gambar terlebih dahulu." }, emptyTrace)
  | some f =>
    if !st.isRecaptchaReady then
      ({ st with error := some "reCAPTCHA belum siap. Silakan tunggu sebentar dan coba lagi." },
       emptyTrace)
    else
      match submitTry st.targetFormat st.outputFilename f env with
      | (Except.ok filename, tr) =>
        ({ st with
            isConverting := false
            error := none
            successMsg := some ("File berhasil dikonversi menjadi " ++ filename) }, tr)
      | (Except.error e, tr) =>
        ({ st with
            isConverting := false
            error := some ("Error: " ++ e)
            successMsg := none }, tr)

/-- Line 263: the submit button disabled condition. -/
def submitDisabled (st : AppState) : Bool :=
  st.selectedFile.isNone || st.isConverting || !st.isRecaptchaReady

/-- Synchronous outcome of the mount effect: the error state set, the
readiness flag value, and whether a provider script tag was injected. -/
structure MountResult where
  error : Option String
  isRecaptchaReady : Bool
  scriptInjected : Bool
deriving DecidableEq, Repr

/-- Lines 34-73, loadRecaptcha: if window.grecaptcha already exists, set
the readiness flag and return without injecting the script; otherwise
inject the provider script tag (readiness then arrives asynchronously
via the onload and ready callbacks). -/
def loadRecaptcha (grecaptchaPresent : Bool) : MountResult :=
  if grecaptchaPresent then
    { error := none, isRecaptchaReady := true, scriptInjected := false }
  else
    { error := none, isRecaptchaReady := false, scriptInjected := true }

/-- Lines 28-76, the mount effect: a missing (absent or empty, by
JavaScript truthiness) site key sets the configuration error, otherwise
loadRecaptcha runs. -/
def mountEffect (siteKey : Option String) (grecaptchaPresent : Bool) : MountResult :=
  match siteKey with
  | none => { error := some "reCAPTCHA configuration missing", isRecaptchaReady := false, scriptInjected := false }
  | some k =>
    if k = "" then
      { error := some "reCAPTCHA configuration missing", isRecaptchaReady := false, scriptInjected := false }
    else
      loadRecaptcha grecaptchaPresent

/-- UI events that mutate the component state: a file-picker change, a
submission attempt (with its environment oracle), the two controlled
inputs, and the asynchronous reCAPTCHA callbacks (the ready callback of
lines 50-53 and the script onerror of lines 61-64). -/
inductive Event where
  | fileChange (file : Option Nat)
  | submit (env : SubmitEnv)
  | setFormat (s : String)
  | setFilename (s : String)
  | recaptchaReady
  | recaptchaFailed

/-- One step of the event-driven UI. -/
def stepEv (st : AppState) (ev : Event) : AppState :=
  match ev with
  | Event.fileChange f => handleFileChange st f
  | Event.submit env => (handleSubmit st env).1
  | Event.setFormat s => { st with targetFormat := s }
  | Event.setFilename s => { st with outputFilename := s }
  | Event.recaptchaReady => { st with isRecaptchaReady := true }
  | Event.recaptchaFailed =>
    { st with error := some "Failed to load reCAPTCHA. Please refresh the page." }

/-- States reachable from the initial state by any event sequence. -/
inductive Reachable : AppState → Prop where
  | init : Reachable initState
  | step {st : AppState} (ev : Event) : Reachable st → Reachable (stepEv st ev)

/-- State invariant maintained by every event: the in-flight flag is
down between events, a populated success message implies a selected
file and reCAPTCHA readiness, at most one preview object URL is live,
every live URL is the one recorded in previewUrl, and the recorded URL
handle is below the fresh counter. -/
def Inv (st : AppState) : Prop :=
  st.isConverting = false ∧
  (st.successMsg.isSome = true → st.selectedFile.isSome = true ∧ st.isRecaptchaReady = true) ∧
  st.liveUrls.length ≤ 1 ∧
  (∀ u, u ∈ st.liveUrls → st.previewUrl = some u) ∧
  (∀ u, st.previewUrl = some u → u < st.nextUrl)

theorem inv_init : Inv initState := by
  refine ⟨rfl, ?_, ?_, ?_, ?_⟩ <;> simp [initState]

theorem revokePreview_selectedFile (st : AppState) :
    (revokePreview st).selectedFile = st.selectedFile := by
  unfold revokePreview; cases st.previewUrl <;> rfl

theorem revokePreview_previewUrl (st : AppState) :
    (revokePreview st).previewUrl = st.previewUrl := by
  unfold revokePreview
  cases hp : st.previewUrl with
  | none => exact hp
  | some u => rfl

theorem revokePreview_nextUrl (st : AppState) :
    (revokePreview st).nextUrl = st.nextUrl := by
  unfold revokePreview; cases st.previewUrl <;> rfl

theorem revokePreview_isConverting (st : AppState) :
    (revokePreview st).isConverting = st.isConverting := by
  unfold revokePreview; cases st.previewUrl <;> rfl

theorem revokePreview_successMsg (st : AppState) :
    (revokePreview st).successMsg = st.successMsg := by
  unfold revokePreview; cases st.previewUrl <;> rfl

theorem revokePreview_isRecaptchaReady (st : AppState) :
    (revokePreview st).isRecaptchaReady = st.isRecaptchaReady := by
  unfold revokePreview; cases st.previewUrl <;> rfl

theorem revokePreview_liveUrls_sublist (st : AppState) :
    (revokePreview st).liveUrls.Sublist st.liveUrls := by
  unfold revokePreview
  cases st.previewUrl with
  | none => exact List.Sublist.refl _
  | some u => exact List.erase_sublist u st.liveUrls

/-- After the unconditional revoke at the top of handleFileChange, no
preview URL is live. -/
theorem liveUrls_revokePreview (st : AppState) (h : Inv st) :
    (revokePreview st).liveUrls = [] := by
  obtain ⟨-, -, hlen, hmem, -⟩ := h
  unfold revokePreview
  cases hpu : st.previewUrl with
  | none =>
    cases hl : st.liveUrls with
    | nil => rfl
    | cons a l =>
      exfalso
      have ha := hmem a (by rw [hl]; exact List.mem_cons_self a l)
      rw [hpu] at ha
      exact Option.noConfusion ha
  | some u =>
    show st.liveUrls.erase u = []
    cases hl : st.liveUrls with
    | nil => rfl
    | cons a l =>
      cases l with
      | nil =>
        have ha := hmem a (by rw [hl]; exact List.mem_cons_self a [])
        rw [hpu] at ha
        have hau : u = a := by injection ha
        rw [hau]
        simp
      | cons b l2 =>
        exfalso
        rw [hl] at hlen
        simp at hlen

theorem inv_handleFileChange (st : AppState) (f : Option Nat) (h : Inv st) :
    Inv (handleFileChange st f) := by
  obtain ⟨hc, hs, hlen, hmem, hfresh⟩ := h
  cases f with
  | none =>
    refine ⟨?_, ?_, ?_, ?_, ?_⟩
    · show (revokePreview st).isConverting = false
      rw [revokePreview_isConverting]; exact hc
    · show (revokePreview st).successMsg.isSome = true →
        (revokePreview st).selectedFile.isSome = true ∧ (revokePreview st).isRecaptchaReady = true
      rw [revokePreview_successMsg, revokePreview_selectedFile, revokePreview_isRecaptchaReady]
      exact hs
    · show (revokePreview st).liveUrls.length ≤ 1
      exact le_trans (List.Sublist.length_le (revokePreview_liveUrls_sublist st)) hlen
    · intro u hu
      show (revokePreview st).previewUrl = some u
      rw [revokePreview_previewUrl]
      exact hmem u (List.Sublist.subset (revokePreview_liveUrls_sublist st) hu)
    · intro u hu
      show u < (revokePreview st).nextUrl
      rw [revokePreview_nextUrl]
      refine hfresh u ?_
      rw [← revokePreview_previewUrl st]
      exact hu
  | some g =>
    have hrev := liveUrls_revokePreview st ⟨hc, hs, hlen, hmem, hfresh⟩
    refine ⟨?_, ?_, ?_, ?_, ?_⟩
    · show (revokePreview st).isConverting = false
      rw [revokePreview_isConverting]; exact hc
    · intro hh
      exact absurd (show (none : Option String).isSome = true from hh) (by simp)
    · show ((revokePreview st).nextUrl :: (revokePreview st).liveUrls).length ≤ 1
      rw [hrev]
      simp
    · intro u hu
      have hu2 : u ∈ (revokePreview st).nextUrl :: (revokePreview st).liveUrls := hu
      rw [hrev] at hu2
      have hue : u = (revokePreview st).nextUrl := by simpa using hu2
      show some (revokePreview st).nextUrl = some u
      rw [hue]
    · intro u hu
      have hu2 : some (revokePreview st).nextUrl = some u := hu
      have h2 : (revokePreview st).nextUrl = u := by injection hu2
      show u < (revokePreview st).nextUrl + 1
      rw [← h2]
      exact Nat.lt_succ_self _

theorem inv_handleSubmit (st : AppState) (env : SubmitEnv) (h : Inv st) :
    Inv (handleSubmit st env).1 := by
  obtain ⟨hc, hs, hlen, hmem, hfresh⟩ := h
  unfold handleSubmit
  split
  · exact ⟨hc, hs, hlen, hmem, hfresh⟩
  · rename_i f hsel
    split
    · exact ⟨hc, hs, hlen, hmem, hfresh⟩
    · rename_i hr
      have hrt : st.isRecaptchaReady = true := by simpa using hr
      rcases htr : submitTry st.targetFormat st.outputFilename f env with ⟨res, tr⟩
      cases res with
      | ok filename =>
        exact ⟨rfl, fun _ => ⟨by rw [hsel]; rfl, hrt⟩, hlen, hmem, hfresh⟩
      | error e =>
        exact ⟨rfl, fun hh =>
          absurd (show (none : Option String).isSome = true from hh) (by simp),
          hlen, hmem, hfresh⟩

theorem inv_stepEv (st : AppState) (ev : Event) (h : Inv st) : Inv (stepEv st ev) := by
  obtain ⟨hc, hs, hlen, hmem, hfresh⟩ := h
  cases ev with
  | fileChange f => exact inv_handleFileChange st f ⟨hc, hs, hlen, hmem, hfresh⟩
  | submit env => exact inv_handleSubmit st env ⟨hc, hs, hlen, hmem, hfresh⟩
  | setFormat s => exact ⟨hc, hs, hlen, hmem, hfresh⟩
  | setFilename s => exact ⟨hc, hs, hlen, hmem, hfresh⟩
  | recaptchaReady => exact ⟨hc, fun hh => ⟨(hs hh).1, rfl⟩, hlen, hmem, hfresh⟩
  | recaptchaFailed => exact ⟨hc, hs, hlen, hmem, hfresh⟩

theorem inv_reachable (st : AppState) (h : Reachable st) : Inv st := by
  induction h with
  | init => exact inv_init
  | step ev _ ih => exact inv_stepEv _ ev ih

/-- Sample successful response used by concrete witnesses. -/
def sampleResp : FetchResponse :=
  { ok := true, status := 200, errorText := "", contentDisposition := none }

/-- Sample failing response used by concrete witnesses. -/
def badResp : FetchResponse :=
  { ok := false, status := 500, errorText := "boom", contentDisposition := none }

/-- Sample environment oracle used by concrete witnesses. -/
def sampleEnv : SubmitEnv :=
  { grecaptchaAvailable := true
    tokenOutcome := Except.ok "tok"
    fetchOutcome := Except.ok sampleResp }

/-- Sample environment whose token resolves empty. -/
def emptyTokEnv : SubmitEnv :=
  { sampleEnv with tokenOutcome := Except.ok "" }

/-- Sample environment whose fetch resolves with a failing response. -/
def badRespEnv : SubmitEnv :=
  { sampleEnv with fetchOutcome := Except.ok badResp }

/-- Sample state with a selected file and reCAPTCHA ready. -/
def readyState : AppState :=
  { initState with selectedFile := some 1, isRecaptchaReady := true }

/-- Claim C1: after any submission attempt completes, whatever exit path
it takes, at most one of the error message and the success message is
populated, for every state reachable by UI events. -/
theorem claim_c1_messages_exclusive (st : AppState) (env : SubmitEnv)
    (h : Reachable st) :
    ¬(((handleSubmit st env).1).error.isSome = true ∧
      ((handleSubmit st env).1).successMsg.isSome = true) := by
  obtain ⟨hc, hs, -, -, -⟩ := inv_reachable st h
  unfold handleSubmit
  split
  · rename_i hsel
    rintro ⟨-, hsucc⟩
    have h2 := (hs hsucc).1
    rw [hsel] at h2
    exact Bool.noConfusion h2
  · rename_i f hsel
    split
    · rename_i hnr
      rintro ⟨-, hsucc⟩
      have h2 := (hs hsucc).2
      rw [h2] at hnr
      exact absurd hnr (by simp)
    · rcases htr : submitTry st.targetFormat st.outputFilename f env with ⟨res, tr⟩
      cases res with
      | ok filename =>
        rintro ⟨herr, -⟩
        exact Bool.noConfusion (show (none : Option String).isSome = true from herr)
      | error e =>
        rintro ⟨-, hsucc⟩
        exact Bool.noConfusion (show (none : Option String).isSome = true from hsucc)

theorem claim_c1_messages_exclusive_witness :
    ¬(((handleSubmit initState sampleEnv).1).error.isSome = true ∧
      ((handleSubmit initState sampleEnv).1).successMsg.isSome = true) :=
  claim_c1_messages_exclusive initState sampleEnv Reachable.init

/-- Claim C2: in every reachable state at most one live (non-revoked)
preview object URL exists, and selecting a new file releases the prior
preview URL: the URL recorded before the change event is not live after
a change event carrying a new file. -/
theorem claim_c2_preview_url_unique (st : AppState) (h : Reachable st) :
    st.liveUrls.length ≤ 1 ∧
    (∀ u f, st.previewUrl = some u → u ∉ (handleFileChange st (some f)).liveUrls) := by
  obtain ⟨hc, hs, hlen, hmem, hfresh⟩ := inv_reachable st h
  refine ⟨hlen, ?_⟩
  intro u f hpu hmem2
  have hrev := liveUrls_revokePreview st ⟨hc, hs, hlen, hmem, hfresh⟩
  have hm2 : u ∈ (revokePreview st).nextUrl :: (revokePreview st).liveUrls := hmem2
  rw [hrev] at hm2
  have hue : u = (revokePreview st).nextUrl := by simpa using hm2
  have hlt := hfresh u hpu
  rw [revokePreview_nextUrl] at hue
  omega

theorem claim_c2_preview_url_unique_witness :
    (stepEv initState (Event.fileChange (some 5))).liveUrls.length ≤ 1 ∧
    0 ∉ (handleFileChange (stepEv initState (Event.fileChange (some 5))) (some 7)).liveUrls := by
  have h := claim_c2_preview_url_unique (stepEv initState (Event.fileChange (some 5)))
    (Reachable.step (Event.fileChange (some 5)) Reachable.init)
  exact ⟨h.1, h.2 0 7 rfl⟩

/-- Claim C3: on every exit path of the submission operation (early
validation failures, thrown verification error, non-success status,
network error, or success), the in-flight flag is false once the
operation has completed, given that it was false when the operation
started (as the disabled control guarantees). -/
theorem claim_c3_inflight_cleared (st : AppState) (env : SubmitEnv)
    (h : st.isConverting = false) :
    ((handleSubmit st env).1).isConverting = false := by
  unfold handleSubmit
  split
  · exact h
  · rename_i f hsel
    split
    · exact h
    · rcases htr : submitTry st.targetFormat st.outputFilename f env with ⟨res, tr⟩
      cases res <;> rfl

theorem claim_c3_inflight_cleared_witness :
    ((handleSubmit initState sampleEnv).1).isConverting = false :=
  claim_c3_inflight_cleared initState sampleEnv rfl

/-- Claim C4: if grecaptcha.execute resolves to an empty token, the
submission ends with the displayed empty-token error, no success
message, and no request is issued to the conversion endpoint. -/
theorem claim_c4_empty_token_aborts (st : AppState) (f : Nat) (env : SubmitEnv)
    (hsel : st.selectedFile = some f)
    (hready : st.isRecaptchaReady = true)
    (havail : env.grecaptchaAvailable = true)
    (htok : env.tokenOutcome = Except.ok "") :
    ((handleSubmit st env).1).error = some "Error: reCAPTCHA token kosong" ∧
    ((handleSubmit st env).1).successMsg = none ∧
    (handleSubmit st env).2.requestSent = false := by
  simp [handleSubmit, submitTry, hsel, hready, havail, htok, emptyTrace]

theorem claim_c4_empty_token_aborts_witness :
    ((handleSubmit readyState emptyTokEnv).1).error = some "Error: reCAPTCHA token kosong" ∧
    ((handleSubmit readyState emptyTokEnv).1).successMsg = none ∧
    (handleSubmit readyState emptyTokEnv).2.requestSent = false :=
  claim_c4_empty_token_aborts readyState 1 emptyTokEnv rfl rfl rfl rfl

/-- Claim C5: a non-success HTTP response makes the submission end with
the displayed server-error message and no download side effect: the
anchor click is not performed and no download object URL is created. -/
theorem claim_c5_http_error_no_download (st : AppState) (f : Nat) (env : SubmitEnv)
    (token : String) (resp : FetchResponse)
    (hsel : st.selectedFile = some f)
    (hready : st.isRecaptchaReady = true)
    (havail : env.grecaptchaAvailable = true)
    (htok : env.tokenOutcome = Except.ok token)
    (htne : token ≠ "")
    (hfetch : env.fetchOutcome = Except.ok resp)
    (hnok : resp.ok = false) :
    ((handleSubmit st env).1).error =
      some ("Error: " ++ ("Server error: " ++ toString resp.status ++ " - " ++ resp.errorText)) ∧
    ((handleSubmit st env).1).successMsg = none ∧
    (handleSubmit st env).2.downloadTriggered = false ∧
    (handleSubmit st env).2.downloadUrlCreated = false := by
  simp [handleSubmit, submitTry, hsel, hready, havail, htok, htne, hfetch, hnok, emptyTrace]

theorem claim_c5_http_error_no_download_witness :
    ((handleSubmit readyState badRespEnv).1).error =
      some ("Error: " ++ ("Server error: " ++ toString badResp.status ++ " - " ++ badResp.errorText)) ∧
    ((handleSubmit readyState badRespEnv).1).successMsg = none ∧
    (handleSubmit readyState badRespEnv).2.downloadTriggered = false ∧
    (handleSubmit readyState badRespEnv).2.downloadUrlCreated = false :=
  claim_c5_http_error_no_download readyState 1 badRespEnv "tok" badResp
    rfl rfl rfl rfl (by decide) rfl rfl

/-- Claim C6: for the header value attachment; filename="result.webp",
the filename-resolution step (regex match plus quote-stripping and
trimming) yields exactly result.webp, for every target format. -/
theorem claim_c6_quoted_filename (targetFormat : String) :
    resolveFilename (some "attachment; filename=\"result.webp\"") targetFormat =
      "result.webp" := rfl

/-- Claim C7: with no content-disposition header the resolved filename
is converted.<target-format>; in particular converted.png for png. -/
theorem claim_c7_fallback_filename (targetFormat : String) :
    resolveFilename none targetFormat = "converted." ++ targetFormat ∧
    resolveFilename none "png" = "converted.png" :=
  ⟨rfl, rfl⟩

/-- Claim C8: the submit control is disabled exactly when no file is
selected, or a submission is in flight, or the readiness flag is not
set. -/
theorem claim_c8_submit_disabled (st : AppState) :
    submitDisabled st = true ↔
      (st.selectedFile = none ∨ st.isConverting = true ∨ st.isRecaptchaReady = false) := by
  cases hsel : st.selectedFile <;> cases hc : st.isConverting <;>
    cases hr : st.isRecaptchaReady <;> simp [submitDisabled, hsel, hc, hr]

/-- Claim C9: whenever the token acquisition succeeds with a non-empty
token, the outbound multipart body holds exactly the fields file,
target_format, g-recaptcha-response, and output_filename only when the
user-supplied output filename is non-empty; and the request is sent. -/
theorem claim_c9_form_fields (st : AppState) (f : Nat) (env : SubmitEnv) (token : String)
    (hsel : st.selectedFile = some f)
    (hready : st.isRecaptchaReady = true)
    (havail : env.grecaptchaAvailable = true)
    (htok : env.tokenOutcome = Except.ok token)
    (htne : token ≠ "") :
    (handleSubmit st env).2.formFields =
      [("file", FormValue.file f),
       ("target_format", FormValue.str st.targetFormat),
       ("g-recaptcha-response", FormValue.str token)] ++
      (if st.outputFilename = "" then [] else
        [("output_filename", FormValue.str st.outputFilename)]) ∧
    (handleSubmit st env).2.requestSent = true := by
  cases hf : env.fetchOutcome with
  | error e =>
    simp [handleSubmit, submitTry, hsel, hready, havail, htok, htne, hf, emptyTrace]
  | ok resp =>
    cases hok : resp.ok <;>
      simp [handleSubmit, submitTry, hsel, hready, havail, htok, htne, hf, hok, emptyTrace]

theorem claim_c9_form_fields_witness :
    (handleSubmit readyState sampleEnv).2.formFields =
      [("file", FormValue.file 1),
       ("target_format", FormValue.str readyState.targetFormat),
       ("g-recaptcha-response", FormValue.str "tok")] ++
      (if readyState.outputFilename = "" then [] else
        [("output_filename", FormValue.str readyState.outputFilename)]) ∧
    (handleSubmit readyState sampleEnv).2.requestSent = true :=
  claim_c9_form_fields readyState 1 sampleEnv "tok" rfl rfl rfl rfl (by decide)

/-- Claim C10: if the global verification object already exists at mount
and the site key is configured (present and non-empty), the readiness
flag is set immediately and no provider script is injected. -/
theorem claim_c10_existing_grecaptcha (siteKey : String) (hk : siteKey ≠ "") :
    mountEffect (some siteKey) true =
      { error := none, isRecaptchaReady := true, scriptInjected := false } := by
  simp [mountEffect, loadRecaptcha, hk]

theorem claim_c10_existing_grecaptcha_witness :
    mountEffect (some "site-key") true =
      { error := none, isRecaptchaReady := true, scriptInjected := false } :=
  claim_c10_existing_grecaptcha "site-key" (by decide)

end Converter
